import Mathlib

/-!
# Verification of the car-buy-guru evaluation core

Shallow embedding of the evaluation data model and controller operations of
the repository (TypeScript sources: `src/controllers/evaluations.ts`, the
`CarEvaluation` mongoose schema, and `src/validators/evaluation.js`), together
with theorems settling the frozen claims about the natural-language spec.

Modelling conventions:
* JavaScript numbers are modelled as `Int` (or `Nat` where the source value is
  a count); no claim depends on fractional values, and the two places where the
  source performs floating-point arithmetic (the mocked market analysis and the
  mocked recommendation offers) are parameterised / integer-approximated, with
  a note at the definition.
* A mongoose document field that is an *optional numeric subfield* is modelled
  as a total field whose value `0` also stands for "undefined": every read of
  such a field in the embedded code paths goes through JS truthiness
  (`x && x.f`, `x?.f || d`), for which `0` and `undefined` behave identically.
* Whole optional subdocuments (`marketAnalysis`, `recommendations`) are
  `Option`-valued, as in the schema.
* Mongo `_id`s are modelled as `Nat`, session tokens and user ids as `String`.
* `Date.now` timestamps are `Nat` parameters threaded explicitly; mongoose
  `timestamps: true` refreshes `updatedAt` on every save.
* The record `sessionId` field exists at the document-store level (the
  repository's JavaScript model declares it and every controller queries on
  it); the TypeScript `createEvaluation` simply never writes it, which the
  embedding reproduces literally.
* Write-time validation: `findOneAndUpdate(..., runValidators: true)` runs
  the schema's update validators on the `$set` paths client-side, before the
  query is dispatched, and `save()` re-runs the schema validators on the
  paths the operation modified (mongoose validates modified paths when
  saving an existing document); either failure is a mongoose
  `ValidationError`, surfaced as a 400 by the error handler.  The saves of
  `analyzeMarket` and `generateRecommendations` modify only unconstrained
  paths besides `status` and the recomputed `progress` (which always
  satisfy their constraints), so they cannot fail; `createEvaluation`'s
  document validation cannot fail either once the request validator chain
  has passed, since its constraints subsume the schema's.
-/

set_option autoImplicit false

namespace CarBuyGuru

/-- Lifecycle status enum of the `CarEvaluation` schema
(`'draft' | 'analyzing' | 'in_progress' | 'awaiting_carfax' | 'completed' | 'archived'`). -/
inductive EvalStatus where
  | draft
  | analyzing
  | in_progress
  | awaiting_carfax
  | completed
  | archived
deriving DecidableEq, Repr

/-- A photo entry (`photos` array items of the schema). -/
structure Photo where
  id : String
  filename : String
  url : String
  uploadedAt : Nat
deriving DecidableEq, Repr

/-- `status` enum of a mechanical inspection result item (`pass`/`fail`/`warning`). -/
inductive InspItemStatus where
  | pass
  | fail
  | warning
deriving DecidableEq, Repr

/-- One entry of `inspection.mechanical.results`. -/
structure InspectionResult where
  category : String
  item : String
  status : InspItemStatus
  notes : Option String
deriving DecidableEq, Repr

/-- `inspection.general` subdocument. -/
structure GeneralInspection where
  completed : Bool
  notes : Option String
  issues : List String
deriving DecidableEq, Repr

/-- `inspection.mechanical` subdocument. -/
structure MechanicalInspection where
  completed : Bool
  results : List InspectionResult
deriving DecidableEq, Repr

/-- `inspection.paperwork` subdocument.  `vinMatch` and `ownershipVerified`
are optional `pass`/`fail` strings in the schema; modelled as `Option String`. -/
structure PaperworkInspection where
  completed : Bool
  vinMatch : Option String
  titleStatus : Option String
  ownershipVerified : Option String
  liens : List String
deriving DecidableEq, Repr

/-- The three independently-completable inspection sections. -/
structure Inspection where
  general : GeneralInspection
  mechanical : MechanicalInspection
  paperwork : PaperworkInspection
deriving DecidableEq, Repr

/-- One comparable listing inside `marketAnalysis.comparable`. -/
structure MarketComparable where
  source : String
  price : Int
  mileage : Int
  location : String
deriving DecidableEq, Repr

/-- `marketAnalysis` subdocument.  All numeric fields are optional in the
schema; per the conventions above `0` also stands for an unset value. -/
structure MarketAnalysis where
  estimatedValue : Int
  priceVsMarket : Int
  dealScore : Nat
  comparable : List MarketComparable
deriving DecidableEq, Repr

/-- Priority enum of a repair-cost entry (`low`/`medium`/`high`). -/
inductive RepairPriority where
  | low
  | medium
  | high
deriving DecidableEq, Repr

/-- One entry of `recommendations.repairCosts`. -/
structure RepairCost where
  issue : String
  estimatedCost : Int
  priority : RepairPriority
deriving DecidableEq, Repr

/-- `recommendations` subdocument; `0` in `suggestedOffer` also stands for an
unset value, per the conventions above. -/
structure Recommendations where
  suggestedOffer : Int
  maxOffer : Int
  walkAwayPrice : Int
  repairCosts : List RepairCost
  negotiationPoints : List String
deriving DecidableEq, Repr

/-- `carfax` subdocument (the opaque `data` payload of a purchased report is
not modelled; no embedded code path reads it). -/
structure CarfaxData where
  requested : Bool
  purchased : Bool
  wantCarfax : Bool
  price : Int
  vin : String
  reportId : Option String
deriving DecidableEq, Repr

/-- `carDetails` subdocument of the schema. -/
structure CarDetails where
  year : Int
  make : String
  model : String
  mileage : Int
  price : Int
  vin : Option String
  description : Option String
deriving DecidableEq, Repr

/-- A stored `CarEvaluation` document.  `userId` is absent for guest-created
records; `sessionId` exists at the store level (see the module conventions). -/
structure Evaluation where
  id : Nat
  userId : Option String
  sessionId : Option String
  carDetails : CarDetails
  photos : List Photo
  carfax : CarfaxData
  marketAnalysis : Option MarketAnalysis
  inspection : Inspection
  recommendations : Option Recommendations
  status : EvalStatus
  progress : Nat
  createdAt : Nat
  updatedAt : Nat
deriving DecidableEq, Repr

/-! ## The progress calculator

`CarEvaluationSchema.methods.calculateProgress`.  Each guard below is the
JS-truthiness reading of the corresponding source condition. -/

/-- Source condition `this.carDetails.year && this.carDetails.make &&
this.carDetails.model && this.carDetails.mileage && this.carDetails.price`:
all five required car details truthy (a numeric `0` and an empty string are
falsy in JS). -/
def basicDetailsOk (e : Evaluation) : Bool :=
  e.carDetails.year != 0 && e.carDetails.make != "" && e.carDetails.model != "" &&
    e.carDetails.mileage != 0 && e.carDetails.price != 0

/-- Source condition `this.photos && this.photos.length > 0`. -/
def photosOk (e : Evaluation) : Bool :=
  e.photos.length > 0

/-- Source condition `this.marketAnalysis && this.marketAnalysis.dealScore`:
the subdocument is set and its `dealScore` is truthy (nonzero). -/
def marketOk (e : Evaluation) : Bool :=
  match e.marketAnalysis with
  | some ma => ma.dealScore != 0
  | none => false

/-- Source condition `this.inspection.general.completed`. -/
def generalOk (e : Evaluation) : Bool :=
  e.inspection.general.completed

/-- Source condition `this.inspection.mechanical.completed`. -/
def mechanicalOk (e : Evaluation) : Bool :=
  e.inspection.mechanical.completed

/-- Source condition `this.inspection.paperwork.completed`. -/
def paperworkOk (e : Evaluation) : Bool :=
  e.inspection.paperwork.completed

/-- Source condition `this.recommendations && this.recommendations.suggestedOffer`. -/
def recommendationsOk (e : Evaluation) : Bool :=
  match e.recommendations with
  | some r => r.suggestedOffer != 0
  | none => false

/-- `calculateProgress` of the `CarEvaluation` model: sequential accumulation
of section weights 20/10/25/10/10/10/15, mirroring the source's statement
order. -/
def calculateProgress (e : Evaluation) : Nat :=
  let progress := 0
  let progress := if basicDetailsOk e then progress + 20 else progress
  let progress := if photosOk e then progress + 10 else progress
  let progress := if marketOk e then progress + 25 else progress
  let progress := if generalOk e then progress + 10 else progress
  let progress := if mechanicalOk e then progress + 10 else progress
  let progress := if paperworkOk e then progress + 10 else progress
  let progress := if recommendationsOk e then progress + 15 else progress
  progress

/-- The source method assigns the recomputed value to `this.progress`;
`recalcProgress` is that assignment. -/
def recalcProgress (e : Evaluation) : Evaluation :=
  { e with progress := calculateProgress e }

/-! ## Request-body validation (`src/validators/evaluation.js`) -/

/-- Whitespace for the purpose of JS `String.prototype.trim` (the ASCII
whitespace characters; every string this repository trims is ASCII). -/
def isJsWsp (c : Char) : Bool :=
  c == ' ' || c == '\t' || c == '\n' || c == '\r' || c == '\x0b' || c == '\x0c'

/-- Drop leading whitespace from a character list. -/
def dropLeadingWsp : List Char → List Char
  | [] => []
  | c :: rest => if isJsWsp c then dropLeadingWsp rest else c :: rest

/-- JS `String.prototype.trim` (ASCII): strip whitespace from both ends. -/
def jsTrim (s : String) : String :=
  ⟨dropLeadingWsp ((dropLeadingWsp s.data.reverse).reverse)⟩

/-- ASCII upper-casing of one character. -/
def jsUpperChar (c : Char) : Char :=
  if 'a' ≤ c && c ≤ 'z' then Char.ofNat (c.toNat - 32) else c

/-- JS `String.prototype.toUpperCase` (ASCII; VINs are alphanumeric). -/
def jsToUpper (s : String) : String :=
  ⟨s.data.map jsUpperChar⟩

/-- Character class of the VIN regex `[A-HJ-NPR-Z0-9]`: upper-case letters
without `I`, `O`, `Q`, plus digits. -/
def vinCharOk (c : Char) : Bool :=
  (('A' ≤ c && c ≤ 'H') || ('J' ≤ c && c ≤ 'N') || c == 'P' || ('R' ≤ c && c ≤ 'Z')
    || ('0' ≤ c && c ≤ '9'))

/-- The `body('vin')` chain: `isLength({min:17,max:17})` and
`matches(/^[A-HJ-NPR-Z0-9]{17}$/)`.  A supplied VIN passes iff both hold. -/
def vinOk (v : String) : Bool :=
  v.length == 17 && v.toList.all vinCharOk

/-- The car-details request body of `POST /api/evaluations`
(`{ year, make, model, mileage, price, vin, description }`). -/
structure CreateBody where
  year : Int
  make : String
  model : String
  mileage : Int
  price : Int
  vin : Option String
  description : Option String
deriving DecidableEq, Repr

/-- The `validateEvaluation` chain of `src/validators/evaluation.js`, as the
list of failure messages it produces; `make`/`model` are checked after the
`.trim()` sanitizer, `vin` and `description` only when supplied.
The year bound is `new Date().getFullYear() + 1`, taken as the explicit
`currentYear` parameter. -/
def validateCarBody (currentYear : Int) (b : CreateBody) : List String :=
  (if b.year < 1990 || b.year > currentYear + 1 then
      ["Year must be between 1990 and " ++ toString (currentYear + 1)] else []) ++
  (if (jsTrim b.make).length < 1 || (jsTrim b.make).length > 50 then
      ["Make is required and must be less than 50 characters"] else []) ++
  (if (jsTrim b.model).length < 1 || (jsTrim b.model).length > 50 then
      ["Model is required and must be less than 50 characters"] else []) ++
  (if b.mileage < 0 || b.mileage > 1000000 then
      ["Mileage must be a positive number less than 1,000,000"] else []) ++
  (if b.price < 0 || b.price > 1000000 then
      ["Price must be a positive number less than $1,000,000"] else []) ++
  (match b.vin with
   | some v =>
      (if v.length != 17 then ["VIN must be exactly 17 characters"] else []) ++
      (if !(v.toList.all vinCharOk) then ["VIN contains invalid characters"] else [])
   | none => []) ++
  (match b.description with
   | some d => if d.length > 1000 then ["Description must be less than 1000 characters"] else []
   | none => [])

/-! ## Summaries and the response envelope -/

/-- Result of `getSummary`: the summary object returned by create/list/analyze
responses.  `dealScore` and `estimatedValue` go through `?.x || null`, so an
unset subdocument or a zero value both surface as `none`. -/
structure Summary where
  id : Nat
  carDisplayName : String
  status : EvalStatus
  progress : Nat
  dealScore : Option Nat
  estimatedValue : Option Int
  askingPrice : Int
  createdAt : Nat
  updatedAt : Nat
deriving DecidableEq, Repr

/-- The `carDisplayName` virtual: `` `${year} ${make} ${model}` ``. -/
def carDisplayName (e : Evaluation) : String :=
  toString e.carDetails.year ++ " " ++ e.carDetails.make ++ " " ++ e.carDetails.model

/-- `CarEvaluationSchema.methods.getSummary`. -/
def getSummary (e : Evaluation) : Summary :=
  { id := e.id
    carDisplayName := carDisplayName e
    status := e.status
    progress := e.progress
    dealScore := match e.marketAnalysis with
      | some ma => if ma.dealScore == 0 then none else some ma.dealScore
      | none => none
    estimatedValue := match e.marketAnalysis with
      | some ma => if ma.estimatedValue == 0 then none else some ma.estimatedValue
      | none => none
    askingPrice := e.carDetails.price
    createdAt := e.createdAt
    updatedAt := e.updatedAt }

/-- Pagination block of the list response. -/
structure Pagination where
  page : Nat
  limit : Nat
  total : Nat
  pages : Nat
deriving DecidableEq, Repr

/-- JSON response envelope of the evaluation controllers, one constructor per
distinct controller response shape. -/
inductive Resp where
  /-- 201: create success, body carries `getSummary` of the new record. -/
  | created (data : Summary)
  /-- 200: success carrying a full record (get / update / inspection;
  analyze and recommendations responses also embed the updated record). -/
  | okRecord (data : Evaluation)
  /-- 200: list success with summaries and pagination. -/
  | okList (data : List Summary) (pagination : Pagination)
  /-- 200: delete success. -/
  | okDeleted
  /-- 400: `Validation failed` with field errors (express-validator). -/
  | validationFailed (errors : List String)
  /-- 400: a mongoose `ValidationError` thrown by `findOneAndUpdate(...,
  runValidators: true)` or `save()`, surfaced through the error handler as
  `{success:false, message}` where `message` joins the failed validators'
  messages (carried here as the list). -/
  | dbValidationError (errors : List String)
  /-- 400: `Session ID required for guest access`. -/
  | sessionRequired
  /-- 404: `Evaluation not found`. -/
  | notFound
deriving DecidableEq, Repr

/-- HTTP status code of each response shape (`res.status(...)`; the
`ValidationError` code is assigned by the error handler). -/
def Resp.statusCode : Resp → Nat
  | .created _ => 201
  | .okRecord _ => 200
  | .okList _ _ => 200
  | .okDeleted => 200
  | .validationFailed _ => 400
  | .dbValidationError _ => 400
  | .sessionRequired => 400
  | .notFound => 404

/-- Whether the envelope is a `success: true` response. -/
def Resp.isSuccess : Resp → Bool
  | .created _ => true
  | .okRecord _ => true
  | .okList _ _ => true
  | .okDeleted => true
  | .validationFailed _ => false
  | .dbValidationError _ => false
  | .sessionRequired => false
  | .notFound => false

/-! ## Store scoping -/

/-- The ownership-scoped query every single-record controller builds:
`{_id: id}` plus `userId` when the request is authenticated, else
`sessionId: req.headers['x-session-id']`. -/
def matchesQuery (user hdr : Option String) (id : Nat) (e : Evaluation) : Bool :=
  e.id == id &&
    (match user with
     | some uid => e.userId == some uid
     | none => e.sessionId == hdr)

/-- Replace the first record satisfying `p` (the document
`findOneAndUpdate` touches). -/
def replaceFirst (db : List Evaluation) (p : Evaluation → Bool) (e' : Evaluation) :
    List Evaluation :=
  match db with
  | [] => []
  | e :: rest => if p e then e' :: rest else e :: replaceFirst rest p e'

/-- Remove the first record satisfying `p` (the document
`findOneAndDelete` removes). -/
def removeFirst (db : List Evaluation) (p : Evaluation → Bool) : List Evaluation :=
  match db with
  | [] => []
  | e :: rest => if p e then rest else e :: removeFirst rest p

/-! ## Controller operations (`src/controllers/evaluations.ts`)

Each operation takes the store as an explicit `List Evaluation` and returns
the response envelope together with the store after the call.  The request
principal is the pair `user : Option String` (the verified `req.user.userId`,
when present) and `hdr : Option String` (the `x-session-id` header). -/

/-- `getSessionId`: the authenticated user's id, else the supplied header,
else a freshly minted random token (`minted` stands for the
`randomBytes(16).toString('hex')` draw). -/
def getSessionId (user hdr : Option String) (minted : String) : String :=
  match user with
  | some uid => uid
  | none => hdr.getD minted

/-- `createEvaluation` (`POST /api/evaluations`): validate the body, then
store a new record with `userId` from the principal, hard-coded
`progress: 20`, status `draft`, empty photo/inspection sections and the VIN
upper-cased.  The source computes `const sessionId = getSessionId(req)` but
`evaluationData` does not contain it (and the TypeScript schema has no
`sessionId` path), so the stored record's `sessionId` is absent — the
embedding reproduces this literally. -/
def createEvaluation (currentYear : Int) (db : List Evaluation) (user hdr : Option String)
    (b : CreateBody) (newId : Nat) (minted : String) (now : Nat) :
    Resp × List Evaluation :=
  let errors := validateCarBody currentYear b
  if errors != [] then
    (.validationFailed errors, db)
  else
    let _sessionId := getSessionId user hdr minted
    let e : Evaluation :=
      { id := newId
        userId := user
        sessionId := none
        carDetails :=
          { year := b.year
            make := jsTrim b.make
            model := jsTrim b.model
            mileage := b.mileage
            price := b.price
            vin := b.vin.map jsToUpper
            description := b.description }
        photos := []
        carfax :=
          { requested := false
            purchased := false
            wantCarfax := false
            price := 0
            vin := (b.vin.map jsToUpper).getD ""
            reportId := none }
        marketAnalysis := none
        inspection :=
          { general := { completed := false, notes := none, issues := [] }
            mechanical := { completed := false, results := [] }
            paperwork := { completed := false, vinMatch := none, titleStatus := none
                           ownershipVerified := none, liens := [] } }
        recommendations := none
        status := .draft
        progress := 20
        createdAt := now
        updatedAt := now }
    (.created (getSummary e), db ++ [e])

/-- Insertion into a list already sorted by `createdAt` descending. -/
def insertByCreatedAtDesc (e : Evaluation) : List Evaluation → List Evaluation
  | [] => [e]
  | x :: rest =>
      if x.createdAt ≤ e.createdAt then e :: x :: rest
      else x :: insertByCreatedAtDesc e rest

/-- `.sort({ createdAt: -1 })` of the list query, as an insertion sort. -/
def sortByCreatedAtDesc (db : List Evaluation) : List Evaluation :=
  match db with
  | [] => []
  | e :: rest => insertByCreatedAtDesc e (sortByCreatedAtDesc rest)

/-- `getEvaluations` (`GET /api/evaluations`): scope the query to the
principal — for a guest the raw `x-session-id` header, rejected with a 400
when it is missing or empty (`if (!query.sessionId)`) — then return a
created-descending page of summaries.  `page`/`limit` are
`parseInt(...) || default`, so a missing, unparsable or zero query value
falls back to 1 and 10. -/
def getEvaluations (db : List Evaluation) (user hdr : Option String)
    (page limit : Option Nat) : Resp :=
  let scopedSet : Option (List Evaluation) :=
    match user with
    | some uid => some (db.filter (fun e => e.userId == some uid))
    | none =>
        match hdr with
        | none => none
        | some s => if s == "" then none else some (db.filter (fun e => e.sessionId == some s))
  match scopedSet with
  | none => .sessionRequired
  | some matching =>
      let page := match page with | some p => if p == 0 then 1 else p | none => 1
      let limit := match limit with | some l => if l == 0 then 10 else l | none => 10
      let skip := (page - 1) * limit
      let ordered := sortByCreatedAtDesc matching
      let pageItems := (ordered.drop skip).take limit
      let total := matching.length
      .okList (pageItems.map getSummary)
        { page := page, limit := limit, total := total, pages := (total + limit - 1) / limit }

/-- `getEvaluation` (`GET /api/evaluations/:id`): `findOne` on the
ownership-scoped query; `404 Evaluation not found` when nothing matches. -/
def getEvaluation (db : List Evaluation) (user hdr : Option String) (id : Nat) : Resp :=
  match db.find? (matchesQuery user hdr id) with
  | some e => .okRecord e
  | none => .notFound

/-! ### Schema write-time validation

`findOneAndUpdate(..., { runValidators: true })` runs the schema's update
validators on the `$set` paths client-side, before the query is dispatched
(so before — and regardless of — any ownership/filter match), and `save()`
re-runs the schema validators on the paths the operation modified.  A
failure throws a mongoose `ValidationError`, which the error handler turns
into a 400 response.  Constraints expressed by total types of the embedding
(`status`, `mechanical.results[].status`, `repairCosts[].priority`, which
are enums in the schema) cannot be violated by a representable value;
`carfax`, `marketAnalysis` and `recommendations` carry no constrained
fields at all. -/

/-- Mongoose's default message for an enum violation on a string path. -/
def enumErrorMsg (path : String) (v : String) : String :=
  "`" ++ v ++ "` is not a valid enum value for path `" ++ path ++ "`."

/-- Validator messages of a `['pass','fail']`-enum path
(`inspection.paperwork.vinMatch`, `inspection.paperwork.ownershipVerified`). -/
def passFailErrors (path : String) : Option String → List String
  | none => []
  | some s => if s == "pass" || s == "fail" then [] else [enumErrorMsg path s]

/-- Validator messages of an inspection subdocument: only the paperwork
section carries constrained string fields; general and mechanical have
none. -/
def inspectionErrors (i : Inspection) : List String :=
  passFailErrors "vinMatch" i.paperwork.vinMatch ++
    passFailErrors "ownershipVerified" i.paperwork.ownershipVerified

/-- Schema setters applied when a whole `carDetails` subdocument is cast on
a `$set`: `trim` on make and model, `uppercase` on the VIN. -/
def castCarDetails (cd : CarDetails) : CarDetails :=
  { cd with make := jsTrim cd.make, model := jsTrim cd.model, vin := cd.vin.map jsToUpper }

/-- Validator messages of a (cast) `carDetails` subdocument, per the
schema: year between 1990 and `currentYear + 1`, make/model required (a
required mongoose string rejects the empty string) and at most 50
characters, mileage/price nonnegative, VIN absent/empty or exactly 17
characters, description at most 1000 characters. -/
def carDetailsErrors (currentYear : Int) (cd : CarDetails) : List String :=
  (if cd.year < 1990 then ["Year must be 1990 or later"] else []) ++
  (if cd.year > currentYear + 1 then ["Year cannot be in the future"] else []) ++
  (if cd.make == "" then ["Please provide car make"] else []) ++
  (if cd.make.length > 50 then ["Make cannot be more than 50 characters"] else []) ++
  (if cd.model == "" then ["Please provide car model"] else []) ++
  (if cd.model.length > 50 then ["Model cannot be more than 50 characters"] else []) ++
  (if cd.mileage < 0 then ["Mileage cannot be negative"] else []) ++
  (if cd.price < 0 then ["Price cannot be negative"] else []) ++
  (match cd.vin with
   | some v => if v != "" && v.length != 17 then ["VIN must be exactly 17 characters"] else []
   | none => []) ++
  (match cd.description with
   | some d =>
      if d.length > 1000 then ["Description cannot be more than 1000 characters"] else []
   | none => [])

/-- Validator messages of a photo array item (`id`, `filename`, `url` are
required strings). -/
def photoErrors (p : Photo) : List String :=
  (if p.id == "" then ["Path `id` is required."] else []) ++
  (if p.filename == "" then ["Path `filename` is required."] else []) ++
  (if p.url == "" then ["Path `url` is required."] else [])

/-- The partial `$set` body of `PUT /api/evaluations/:id` after the
controller deletes `_id`, `userId`, `createdAt` and `updatedAt` from it: one
optional replacement per remaining top-level schema path (`some` when the
key is present in the request body). -/
structure UpdatePatch where
  carDetails : Option CarDetails
  photos : Option (List Photo)
  carfax : Option CarfaxData
  marketAnalysis : Option MarketAnalysis
  inspection : Option Inspection
  recommendations : Option Recommendations
  status : Option EvalStatus
  progress : Option Nat
deriving DecidableEq, Repr

/-- The all-absent patch (an empty request body). -/
def UpdatePatch.empty : UpdatePatch :=
  { carDetails := none, photos := none, carfax := none, marketAnalysis := none
    inspection := none, recommendations := none, status := none, progress := none }

/-- The update validators run on the `$set` paths of a patch (after the
schema setters have been applied to cast values). -/
def updateValidatorErrors (currentYear : Int) (p : UpdatePatch) : List String :=
  (match p.carDetails with
   | some cd => carDetailsErrors currentYear (castCarDetails cd)
   | none => []) ++
  (match p.photos with
   | some ps => (ps.map photoErrors).flatten
   | none => []) ++
  (match p.inspection with
   | some i => inspectionErrors i
   | none => []) ++
  (match p.progress with
   | some pr =>
      if pr > 100 then
        ["Path `progress` (" ++ toString pr ++ ") is more than maximum allowed value (100)."]
      else []
   | none => [])

/-- `$set` of the supplied paths (cast values go through the schema
setters). -/
def applyPatch (e : Evaluation) (p : UpdatePatch) : Evaluation :=
  { e with
    carDetails := (p.carDetails.map castCarDetails).getD e.carDetails
    photos := p.photos.getD e.photos
    carfax := p.carfax.getD e.carfax
    marketAnalysis := match p.marketAnalysis with | some ma => some ma | none => e.marketAnalysis
    inspection := p.inspection.getD e.inspection
    recommendations := match p.recommendations with | some r => some r | none => e.recommendations
    status := p.status.getD e.status
    progress := p.progress.getD e.progress }

/-- `updateEvaluation` (`PUT /api/evaluations/:id`): the update validators
of `findOneAndUpdate(..., runValidators: true)` run on the `$set` paths
first, rejecting an invalid patch with a 400 `ValidationError` before any
ownership/filter match; then the ownership-scoped `findOneAndUpdate`
applies the patch (404 and an untouched store when nothing matches), then
`calculateProgress()` and `save()` (which refreshes `updatedAt`).  The
`save()` validates the paths this call modified — the already-validated
`$set` paths plus the recomputed `progress`, which is at most 100 by
`calcProgress_le_100` — so it introduces no further failure.  A
client-supplied `progress` is always overwritten by the recomputation. -/
def updateEvaluation (currentYear : Int) (db : List Evaluation) (user hdr : Option String)
    (id : Nat) (p : UpdatePatch) (now : Nat) : Resp × List Evaluation :=
  let verrors := updateValidatorErrors currentYear p
  if verrors != [] then
    (.dbValidationError verrors, db)
  else
    match db.find? (matchesQuery user hdr id) with
    | none => (.notFound, db)
    | some r =>
        let merged := applyPatch r p
        let e' := { recalcProgress merged with updatedAt := now }
        (.okRecord e', replaceFirst db (matchesQuery user hdr id) e')

/-- `deleteEvaluation` (`DELETE /api/evaluations/:id`): `findOneAndDelete`
on the ownership-scoped query; 404 and an untouched store when nothing
matches. -/
def deleteEvaluation (db : List Evaluation) (user hdr : Option String) (id : Nat) :
    Resp × List Evaluation :=
  match db.find? (matchesQuery user hdr id) with
  | none => (.notFound, db)
  | some _ => (.okDeleted, removeFirst db (matchesQuery user hdr id))

/-- The `results` object of `PUT /api/evaluations/:id/inspection`, spread
into the addressed section: one optional override per section subfield
(`some` when the key is present in the request body).  The controller forces
`completed: true` after the spread, so a `completed` key in `results` never
survives. -/
structure InspResults where
  notes : Option String
  issues : Option (List String)
  results : Option (List InspectionResult)
  vinMatch : Option String
  titleStatus : Option String
  ownershipVerified : Option String
  liens : Option (List String)
deriving DecidableEq, Repr

/-- An empty `results` body. -/
def InspResults.empty : InspResults :=
  { notes := none, issues := none, results := none, vinMatch := none
    titleStatus := none, ownershipVerified := none, liens := none }

/-- `{...evaluation.inspection.general, ...results, completed: true}`. -/
def mergeGeneral (g : GeneralInspection) (r : InspResults) : GeneralInspection :=
  { completed := true
    notes := match r.notes with | some v => some v | none => g.notes
    issues := r.issues.getD g.issues }

/-- `{...evaluation.inspection.mechanical, ...results, completed: true}`. -/
def mergeMechanical (m : MechanicalInspection) (r : InspResults) : MechanicalInspection :=
  { completed := true
    results := r.results.getD m.results }

/-- `{...evaluation.inspection.paperwork, ...results, completed: true}`. -/
def mergePaperwork (p : PaperworkInspection) (r : InspResults) : PaperworkInspection :=
  { completed := true
    vinMatch := match r.vinMatch with | some v => some v | none => p.vinMatch
    titleStatus := match r.titleStatus with | some v => some v | none => p.titleStatus
    ownershipVerified := match r.ownershipVerified with | some v => some v | none => p.ownershipVerified
    liens := r.liens.getD p.liens }

/-- The `if (inspectionType === ...)` chain of `updateInspection`: merge
`results` into the named section; a name outside the three known sections
falls through every branch and leaves the inspection untouched. -/
def applyInspection (i : Inspection) (inspectionType : String) (results : InspResults) :
    Inspection :=
  if inspectionType == "general" then
    { i with general := mergeGeneral i.general results }
  else if inspectionType == "mechanical" then
    { i with mechanical := mergeMechanical i.mechanical results }
  else if inspectionType == "paperwork" then
    { i with paperwork := mergePaperwork i.paperwork results }
  else i

/-- `updateInspection` (`PUT /api/evaluations/:id/inspection`): find the
ownership-scoped record, merge `results` into the section named by
`inspectionType` (there is no request-validation branch for an unknown
name), then unconditionally set status `in_progress`, recompute progress
and `save()` (refreshing `updatedAt`).  The `save()` validates the paths
this call modified: the assigned status and recomputed progress always
satisfy their constraints, and of the three sections only a paperwork
merge can introduce values on constrained fields (the two pass/fail
enums) — an invalid merged paperwork section makes the save throw, which
the error handler surfaces as a 400 `ValidationError`; a merge into
general or mechanical, or an unknown `inspectionType` that merges nothing,
cannot fail. -/
def updateInspection (db : List Evaluation) (user hdr : Option String) (id : Nat)
    (inspectionType : String) (results : InspResults) (now : Nat) :
    Resp × List Evaluation :=
  match db.find? (matchesQuery user hdr id) with
  | none => (.notFound, db)
  | some r =>
      let insp := applyInspection r.inspection inspectionType results
      let serrors := if inspectionType == "paperwork" then inspectionErrors insp else []
      if serrors != [] then
        (.dbValidationError serrors, db)
      else
        let e' := { recalcProgress { r with inspection := insp, status := .in_progress }
                      with updatedAt := now }
        (.okRecord e', replaceFirst db (matchesQuery user hdr id) e')

/-- The deal-score cascade of `analyzeMarket` over `priceVsMarket`. -/
def dealScoreOf (priceVsMarket : Int) : Nat :=
  if priceVsMarket < -20 then 90
  else if priceVsMarket < -10 then 75
  else if priceVsMarket < 0 then 65
  else if priceVsMarket < 10 then 45
  else if priceVsMarket < 20 then 30
  else 15

/-- `analyzeMarket` (`POST /api/evaluations/:id/analyze`): find the
ownership-scoped record, build the mocked market analysis and store it, set
status `analyzing` unconditionally, recompute progress, save.

The mock's arithmetic draws on `Math.random()` and floating-point division;
its outputs are injected here as the parameters `estimatedValue` (the value
after the base/mileage/age adjustments), `priceVsMarket` (the rounded
percentage) and `comparable` (the three randomised comparables).  The stored
`dealScore` is the source's deterministic cascade over `priceVsMarket`.
The `save()` validates the modified paths — `marketAnalysis` carries no
constrained fields, and the assigned status and recomputed progress always
satisfy theirs — so it cannot fail. -/
def analyzeMarket (db : List Evaluation) (user hdr : Option String) (id : Nat)
    (estimatedValue priceVsMarket : Int) (comparable : List MarketComparable)
    (now : Nat) : Resp × List Evaluation :=
  match db.find? (matchesQuery user hdr id) with
  | none => (.notFound, db)
  | some r =>
      let ma : MarketAnalysis :=
        { estimatedValue := estimatedValue
          priceVsMarket := priceVsMarket
          dealScore := dealScoreOf priceVsMarket
          comparable := comparable }
      let e' := { recalcProgress { r with marketAnalysis := some ma, status := .analyzing }
                    with updatedAt := now }
      (.okRecord e', replaceFirst db (matchesQuery user hdr id) e')

/-- Rounded multiplication used by the recommendation offers:
`Math.round(n * num / den)` for nonnegative `den`, as round-half-up integer
arithmetic.  The source computes these on IEEE doubles; no claim depends on
the sub-unit rounding. -/
def roundMulDiv (n num den : Int) : Int :=
  (2 * n * num + den) / (2 * den)

/-- `generateRecommendations` (`POST /api/evaluations/:id/recommendations`):
find the ownership-scoped record, price the `fail` items of a completed
mechanical inspection (cost and priority drawn from `Math.random()`, injected
here as `draw`, with `(draw i).2 = true` standing for `Math.random() > 0.6`),
derive the offers from `marketAnalysis?.estimatedValue || carDetails.price`,
store them, set status `completed` unconditionally, recompute progress,
save.  The `save()` validates the modified paths — `recommendations` has no
constrained fields beyond the repair-cost priority enum, total in the
embedding and always `medium`/`high` here, and the assigned status and
recomputed progress always satisfy theirs — so it cannot fail. -/
def generateRecommendations (db : List Evaluation) (user hdr : Option String) (id : Nat)
    (draw : Nat → Int × Bool) (now : Nat) : Resp × List Evaluation :=
  match db.find? (matchesQuery user hdr id) with
  | none => (.notFound, db)
  | some r =>
      let failItems :=
        if r.inspection.mechanical.completed then
          r.inspection.mechanical.results.filter (fun res => res.status == .fail)
        else []
      let repairCosts : List RepairCost :=
        failItems.enum.map (fun p =>
          { issue := p.2.item
            estimatedCost := (draw p.1).1
            priority := if (draw p.1).2 then .high else .medium })
      let totalRepairCosts := repairCosts.foldl (fun t c => t + c.estimatedCost) 0
      let estimatedValue : Int :=
        match r.marketAnalysis with
        | some ma => if ma.estimatedValue == 0 then r.carDetails.price else ma.estimatedValue
        | none => r.carDetails.price
      let recs : Recommendations :=
        { suggestedOffer := roundMulDiv estimatedValue 9 10 - totalRepairCosts
          maxOffer := estimatedValue - totalRepairCosts
          walkAwayPrice := roundMulDiv estimatedValue 21 20
          repairCosts := repairCosts
          negotiationPoints :=
            ["Point out any mechanical issues discovered",
             "Reference market pricing data",
             "Highlight repair costs needed",
             "Be prepared to walk away if price is too high",
             "Consider the total cost of ownership"] }
      let e' := { recalcProgress { r with recommendations := some recs, status := .completed }
                    with updatedAt := now }
      (.okRecord e', replaceFirst db (matchesQuery user hdr id) e')

/-! ## Observation helpers -/

/-- Status of the record carried by a success response, when there is one. -/
def Resp.statusOf : Resp → Option EvalStatus
  | .okRecord e => some e.status
  | .created s => some s.status
  | _ => none

/-- Progress of the record carried by a success response, when there is one. -/
def Resp.progressOf : Resp → Option Nat
  | .okRecord e => some e.progress
  | .created s => some s.progress
  | _ => none

/-- The record carried by a success response, with a default. -/
def respRecordD (r : Resp) (d : Evaluation) : Evaluation :=
  match r with
  | .okRecord e => e
  | _ => d

/-! ## Shared fixtures -/

/-- A well-formed car-details request body (the §8 scenario's car). -/
def baseBody : CreateBody :=
  { year := 2020, make := "Honda", model := "Civic", mileage := 30000, price := 18000,
    vin := none, description := none }

/-- An all-unset inspection, as stored at creation. -/
def baseInspection : Inspection :=
  { general := { completed := false, notes := none, issues := [] }
    mechanical := { completed := false, results := [] }
    paperwork := { completed := false, vinMatch := none, titleStatus := none,
                   ownershipVerified := none, liens := [] } }

/-- An all-default carfax section. -/
def baseCarfax : CarfaxData :=
  { requested := false, purchased := false, wantCarfax := false, price := 0, vin := "",
    reportId := none }

/-- A stored record holding only well-formed car details. -/
def baseEvaluation : Evaluation :=
  { id := 1, userId := none, sessionId := none
    carDetails := { year := 2020, make := "Honda", model := "Civic", mileage := 30000,
                    price := 18000, vin := none, description := none }
    photos := [], carfax := baseCarfax, marketAnalysis := none, inspection := baseInspection
    recommendations := none, status := .draft, progress := 20, createdAt := 0, updatedAt := 0 }

/-! ## Shared lemmas about the progress calculator -/

/-- `calculateProgress` is the weighted sum of the seven truthy section
checks. -/
theorem calcProgress_eq (e : Evaluation) :
    calculateProgress e =
      (if basicDetailsOk e then 20 else 0) + (if photosOk e then 10 else 0) +
      (if marketOk e then 25 else 0) + (if generalOk e then 10 else 0) +
      (if mechanicalOk e then 10 else 0) + (if paperworkOk e then 10 else 0) +
      (if recommendationsOk e then 15 else 0) := by
  unfold calculateProgress
  cases basicDetailsOk e <;> cases photosOk e <;> cases marketOk e <;> cases generalOk e <;>
    cases mechanicalOk e <;> cases paperworkOk e <;> cases recommendationsOk e <;> rfl

/-- The weights sum to 100, so the calculator never exceeds 100. -/
theorem calcProgress_le_100 (e : Evaluation) : calculateProgress e ≤ 100 := by
  rw [calcProgress_eq]
  split_ifs <;> omega

/-- A weighted indicator is monotone in its boolean. -/
theorem ite_weight_mono (a b : Bool) (w : Nat) (h : a = true → b = true) :
    (if a then w else 0) ≤ (if b then w else 0) := by
  cases a <;> cases b <;> simp_all

/-- Pointwise ordering of the seven section checks of two records: everything
counted on the left is still counted on the right (a step that only adds
data). -/
def predsLe (e e' : Evaluation) : Prop :=
  (basicDetailsOk e = true → basicDetailsOk e' = true) ∧
  (photosOk e = true → photosOk e' = true) ∧
  (marketOk e = true → marketOk e' = true) ∧
  (generalOk e = true → generalOk e' = true) ∧
  (mechanicalOk e = true → mechanicalOk e' = true) ∧
  (paperworkOk e = true → paperworkOk e' = true) ∧
  (recommendationsOk e = true → recommendationsOk e' = true)

instance (e e' : Evaluation) : Decidable (predsLe e e') := by
  unfold predsLe
  infer_instance

/-- The calculator is monotone along `predsLe`. -/
theorem calcProgress_mono (e e' : Evaluation) (h : predsLe e e') :
    calculateProgress e ≤ calculateProgress e' := by
  obtain ⟨h1, h2, h3, h4, h5, h6, h7⟩ := h
  rw [calcProgress_eq, calcProgress_eq]
  have g1 := ite_weight_mono _ _ 20 h1
  have g2 := ite_weight_mono _ _ 10 h2
  have g3 := ite_weight_mono _ _ 25 h3
  have g4 := ite_weight_mono _ _ 10 h4
  have g5 := ite_weight_mono _ _ 10 h5
  have g6 := ite_weight_mono _ _ 10 h6
  have g7 := ite_weight_mono _ _ 15 h7
  omega

/-! ## Shared lemmas about the scoped store query -/

/-- `findOne` on the scoped query misses when no stored record matches it. -/
theorem find?_matchesQuery_eq_none (db : List Evaluation) (user hdr : Option String)
    (id : Nat) (h : ∀ e ∈ db, matchesQuery user hdr id e = false) :
    db.find? (matchesQuery user hdr id) = none := by
  induction db with
  | nil => rfl
  | cons x rest ih =>
      have hx := h x (by simp)
      simp only [List.find?, hx]
      exact ih (fun e he => h e (by simp [he]))

/-- A guest query built from session `s1` never matches a record whose
`sessionId` is a different `s2`. -/
theorem matchesQuery_guest_false (s1 s2 : String) (id : Nat) (e : Evaluation)
    (hne : s1 ≠ s2) (hown : e.id = id → e.sessionId = some s2) :
    matchesQuery none (some s1) id e = false := by
  by_cases h : e.id = id
  · have hsess := hown h
    simp [matchesQuery, h, hsess]
    exact fun hcontra => hne hcontra.symm
  · simp [matchesQuery, h]

/-- A user query for `u` never matches a record whose owner is not `u`. -/
theorem matchesQuery_user_false (u : String) (hdr : Option String) (id : Nat)
    (e : Evaluation) (hown : e.id = id → e.userId ≠ some u) :
    matchesQuery (some u) hdr id e = false := by
  by_cases h : e.id = id
  · have huser := hown h
    simp [matchesQuery, h]
    exact fun hcontra => huser (by rw [hcontra])
  · simp [matchesQuery, h]

/-! ## Shared lemmas about the operations -/

/-- The deal-score cascade never produces zero. -/
theorem dealScoreOf_ne_zero (pvm : Int) : dealScoreOf pvm ≠ 0 := by
  unfold dealScoreOf
  split_ifs <;> decide

/-- An `inspectionType` outside the three known names leaves the inspection
untouched. -/
theorem applyInspection_unknown (i : Inspection) (t : String) (res : InspResults)
    (hg : t ≠ "general") (hm : t ≠ "mechanical") (hp : t ≠ "paperwork") :
    applyInspection i t res = i := by
  simp [applyInspection, hg, hm, hp]

/-- Merging `results` into any (or no) section never clears a `completed`
flag: the general section. -/
theorem applyInspection_general_mono (i : Inspection) (t : String) (res : InspResults)
    (h : i.general.completed = true) :
    (applyInspection i t res).general.completed = true := by
  unfold applyInspection
  split_ifs <;> simp [mergeGeneral, h]

/-- Merging `results` never clears `mechanical.completed`. -/
theorem applyInspection_mechanical_mono (i : Inspection) (t : String) (res : InspResults)
    (h : i.mechanical.completed = true) :
    (applyInspection i t res).mechanical.completed = true := by
  unfold applyInspection
  split_ifs <;> simp [mergeMechanical, h]

/-- Merging `results` never clears `paperwork.completed`. -/
theorem applyInspection_paperwork_mono (i : Inspection) (t : String) (res : InspResults)
    (h : i.paperwork.completed = true) :
    (applyInspection i t res).paperwork.completed = true := by
  unfold applyInspection
  split_ifs <;> simp [mergePaperwork, h]

/-! ## Claim C1 -/

/-- Store state after a guest `POST /api/evaluations` presenting session id
`"abc123"` with a well-formed body. -/
def c1Out : Resp × List Evaluation :=
  createEvaluation 2026 [] none (some "abc123") baseBody 1 "minted" 5

/-- C1 (code bug): a guest create with session id `"abc123"` succeeds and
stores a record with no owner, but the stored record's `sessionId` is
absent — `createEvaluation` computes the session id and never writes it —
so the subsequent get by the same guest presenting `"abc123"` returns 404
instead of the created record. -/
theorem c1_guest_session_not_stored :
    c1Out.1.isSuccess = true ∧
    c1Out.2.map (fun e => e.userId) = [none] ∧
    c1Out.2.map (fun e => e.sessionId) = [none] ∧
    getEvaluation c1Out.2 none (some "abc123") 1 = .notFound := by
  decide

/-! ## Claim C3 -/

/-- The progress formula as the claim's sentence reads, for comparison with
the source's `calculateProgress`: each weight is granted when the section's
data is *present* — the five required `carDetails` fields are present in
every stored record, photos count when at least one is attached, and an
optional subdocument (`marketAnalysis` carrying `dealScore`,
`recommendations` carrying `suggestedOffer`) counts when it is set. -/
def specProgressPresent (e : Evaluation) : Nat :=
  20 + (if photosOk e then 10 else 0) + (if e.marketAnalysis.isSome then 25 else 0) +
    (if generalOk e then 10 else 0) + (if mechanicalOk e then 10 else 0) +
    (if paperworkOk e then 10 else 0) + (if e.recommendations.isSome then 15 else 0)

/-- A record whose recommendations are present with `suggestedOffer = 0`
(reachable through `PUT /api/evaluations/:id` with a partial body, and
through `generateRecommendations` on a record with neither market analysis
nor a nonzero price). -/
def c3Cex : Evaluation :=
  { baseEvaluation with
      recommendations := some { suggestedOffer := 0, maxOffer := 0, walkAwayPrice := 0,
                                repairCosts := [], negotiationPoints := [] } }

/-- C3 counterexample: on a record with recommendations present but
`suggestedOffer = 0`, the source's calculator returns 20 while the
claim's present-keyed weighted sum returns 35 — `calculateProgress` tests
JS truthiness (`suggestedOffer` nonzero), not presence. -/
theorem c3_present_reading_fails :
    calculateProgress c3Cex = 20 ∧ specProgressPresent c3Cex = 35 := by
  decide

/-- C3 amended: `calculateProgress` is the weighted sum
20/10/25/10/10/10/15 of the seven section checks with each check read as
the source's JS-truthiness condition (nonzero `dealScore`, nonzero
`suggestedOffer`, nonzero numeric car details); for any evaluation with all
seven checks satisfied the result is exactly 100, and for every evaluation
it lies in [0,100]. -/
theorem c3_progress_weighted_sum (e : Evaluation) :
    (calculateProgress e =
      (if basicDetailsOk e then 20 else 0) + (if photosOk e then 10 else 0) +
      (if marketOk e then 25 else 0) + (if generalOk e then 10 else 0) +
      (if mechanicalOk e then 10 else 0) + (if paperworkOk e then 10 else 0) +
      (if recommendationsOk e then 15 else 0)) ∧
    calculateProgress e ≤ 100 ∧
    (basicDetailsOk e = true → photosOk e = true → marketOk e = true →
      generalOk e = true → mechanicalOk e = true → paperworkOk e = true →
      recommendationsOk e = true → calculateProgress e = 100) := by
  refine ⟨calcProgress_eq e, calcProgress_le_100 e, ?_⟩
  intro h1 h2 h3 h4 h5 h6 h7
  rw [calcProgress_eq, h1, h2, h3, h4, h5, h6, h7]
  decide

/-- A record with all seven sections satisfied. -/
def c3Full : Evaluation :=
  { baseEvaluation with
      photos := [{ id := "p1", filename := "front.jpg", url := "/p/front.jpg", uploadedAt := 1 }]
      marketAnalysis := some { estimatedValue := 20000, priceVsMarket := -10, dealScore := 75,
                               comparable := [] }
      inspection :=
        { general := { completed := true, notes := none, issues := [] }
          mechanical := { completed := true, results := [] }
          paperwork := { completed := true, vinMatch := none, titleStatus := none,
                         ownershipVerified := none, liens := [] } }
      recommendations := some { suggestedOffer := 15000, maxOffer := 16000,
                                walkAwayPrice := 21000, repairCosts := [],
                                negotiationPoints := [] } }

/-- C3 witness: the amended theorem applied to a concrete record with all
seven sections satisfied yields exactly 100. -/
theorem c3_progress_weighted_sum_witness : calculateProgress c3Full = 100 :=
  (c3_progress_weighted_sum c3Full).2.2 (by decide) (by decide) (by decide) (by decide)
    (by decide) (by decide) (by decide)

/-! ## Claim C4 -/

/-- The §3-valid body with `mileage = 0`. -/
def c4Body : CreateBody := { baseBody with mileage := 0 }

/-- Store state after an authenticated create of `c4Body`. -/
def c4Out : Resp × List Evaluation :=
  createEvaluation 2026 [] (some "u1") none c4Body 1 "m" 5

/-- C4 (code bug): a body with only car details and `mileage = 0` passes
validation and is created with the hard-coded `progress: 20`, but
`calculateProgress` treats the zero as missing, so the very first
recomputation — here a `PUT` with an empty body — drops the stored progress
to 0 instead of the claimed 20. -/
theorem c4_zero_mileage_progress_drops :
    validateCarBody 2026 c4Body = [] ∧
    c4Out.1.isSuccess = true ∧
    c4Out.2.map (fun e => e.progress) = [20] ∧
    c4Out.2.map calculateProgress = [0] ∧
    (updateEvaluation 2026 c4Out.2 (some "u1") none 1 UpdatePatch.empty 6).1.progressOf
      = some 0 := by
  decide

/-! ## Claim C2 -/

/-- A record stored under guest session `"s2"`. -/
def c2Rec : Evaluation := { baseEvaluation with sessionId := some "s2" }

/-- A patch that fails the schema's update validators
(`progress: 101` against `max: 100`). -/
def c2BadPatch : UpdatePatch := { UpdatePatch.empty with progress := some 101 }

/-- C2 counterexample: a guest presenting `"s1"` who sends an update with
an out-of-range patch against a record stored under `"s2"` is answered
400 (the update validators reject client-side, before the ownership
filter is consulted), not the 404 the claim asserts for every update —
though the record is still unchanged. -/
theorem c2_invalid_patch_gets_400_not_404 :
    (updateEvaluation 2026 [c2Rec] none (some "s1") 1 c2BadPatch 7).1.statusCode = 400 ∧
    (updateEvaluation 2026 [c2Rec] none (some "s1") 1 c2BadPatch 7).1 ≠ .notFound ∧
    (updateEvaluation 2026 [c2Rec] none (some "s1") 1 c2BadPatch 7).2 = [c2Rec] := by
  decide

/-- C2 amended: a guest presenting session `s1` can never get, update or
delete a record stored under a different session `s2`: get and delete
answer 404; update answers 404 for every patch that passes the schema's
update validators (a patch that fails them is rejected with a 400
`ValidationError` before any ownership check); and in every case the store
— hence the record — is unchanged. -/
theorem c2_guest_cross_session_isolated
    (db : List Evaluation) (s1 s2 : String) (id : Nat) (p : UpdatePatch) (cy : Int)
    (now : Nat)
    (hne : s1 ≠ s2) (hown : ∀ e ∈ db, e.id = id → e.sessionId = some s2) :
    getEvaluation db none (some s1) id = .notFound ∧
    (updateValidatorErrors cy p = [] →
      updateEvaluation cy db none (some s1) id p now = (.notFound, db)) ∧
    (updateEvaluation cy db none (some s1) id p now).2 = db ∧
    deleteEvaluation db none (some s1) id = (.notFound, db) := by
  have hnone : db.find? (matchesQuery none (some s1) id) = none :=
    find?_matchesQuery_eq_none db none (some s1) id
      (fun e he => matchesQuery_guest_false s1 s2 id e hne (hown e he))
  refine ⟨?_, ?_, ?_, ?_⟩
  · simp [getEvaluation, hnone]
  · intro hval
    simp [updateEvaluation, hval, hnone]
  · by_cases hval : updateValidatorErrors cy p = []
    · simp [updateEvaluation, hval, hnone]
    · simp [updateEvaluation, bne_iff_ne, hval]
  · simp [deleteEvaluation, hnone]

/-- C2 witness: the amended theorem applied to a concrete one-record store
with session `"s2"`, a caller presenting `"s1"`, and a validating (empty)
patch. -/
theorem c2_guest_cross_session_isolated_witness :
    getEvaluation [c2Rec] none (some "s1") 1 = .notFound ∧
    updateEvaluation 2026 [c2Rec] none (some "s1") 1 UpdatePatch.empty 7 =
      (.notFound, [c2Rec]) ∧
    deleteEvaluation [c2Rec] none (some "s1") 1 = (.notFound, [c2Rec]) :=
  let h := c2_guest_cross_session_isolated [c2Rec] "s1" "s2" 1 UpdatePatch.empty 2026 7
    (by decide) (by intro e he hid; simp at he; rw [he]; rfl)
  ⟨h.1, h.2.1 (by decide), h.2.2.2⟩

/-! ## Claim C9 -/

/-- A record owned by user `"u2"`. -/
def c9Rec : Evaluation := { baseEvaluation with userId := some "u2" }

/-- C9 counterexample: in the TypeScript controllers the ownership check is
folded into the store query, so an authenticated caller `"u1"` asking for a
record owned by `"u2"` receives 404 Not Found — not the 403 Forbidden the
claim asserts for mismatched authenticated identities. -/
theorem c9_user_mismatch_gets_404 :
    getEvaluation [c9Rec] (some "u1") none 1 = .notFound ∧
    (deleteEvaluation [c9Rec] (some "u1") none 1).1 = .notFound ∧
    Resp.notFound.statusCode = 404 ∧ (404 : Nat) ≠ 403 := by
  decide

/-- C9 amended: every ownership denial on get/update/delete surfaces as 404
Not Found, for authenticated callers with a mismatched user id exactly as
for guests with a mismatched session: the scoped query simply misses, no
embedded operation ever answers 403, and the store is unchanged.  For
update the 404 is asserted for patches that pass the schema's update
validators — a patch that fails them is rejected with a 400
`ValidationError` before any ownership check, for owners and non-owners
alike — and the store is unchanged either way. -/
theorem c9_ownership_denial_is_always_404
    (db : List Evaluation) (u : String) (hdr : Option String) (id : Nat)
    (p : UpdatePatch) (cy : Int) (now : Nat)
    (hown : ∀ e ∈ db, e.id = id → e.userId ≠ some u) :
    getEvaluation db (some u) hdr id = .notFound ∧
    (updateValidatorErrors cy p = [] →
      updateEvaluation cy db (some u) hdr id p now = (.notFound, db)) ∧
    (updateEvaluation cy db (some u) hdr id p now).2 = db ∧
    deleteEvaluation db (some u) hdr id = (.notFound, db) ∧
    Resp.notFound.statusCode = 404 := by
  have hnone : db.find? (matchesQuery (some u) hdr id) = none :=
    find?_matchesQuery_eq_none db (some u) hdr id
      (fun e he => matchesQuery_user_false u hdr id e (hown e he))
  refine ⟨?_, ?_, ?_, ?_, rfl⟩
  · simp [getEvaluation, hnone]
  · intro hval
    simp [updateEvaluation, hval, hnone]
  · by_cases hval : updateValidatorErrors cy p = []
    · simp [updateEvaluation, hval, hnone]
    · simp [updateEvaluation, bne_iff_ne, hval]
  · simp [deleteEvaluation, hnone]

/-- C9 witness: the amended theorem applied to the concrete mismatched-owner
store with a validating (empty) patch. -/
theorem c9_ownership_denial_is_always_404_witness :
    getEvaluation [c9Rec] (some "u1") none 1 = .notFound ∧
    updateEvaluation 2026 [c9Rec] (some "u1") none 1 UpdatePatch.empty 7 =
      (.notFound, [c9Rec]) ∧
    deleteEvaluation [c9Rec] (some "u1") none 1 = (.notFound, [c9Rec]) ∧
    Resp.notFound.statusCode = 404 :=
  let h := c9_ownership_denial_is_always_404 [c9Rec] "u1" none 1 UpdatePatch.empty 2026 7
    (by intro e he hid; simp at he; rw [he]; decide)
  ⟨h.1, h.2.1 (by decide), h.2.2.2.1, h.2.2.2.2⟩

/-! ## Claim C8 -/

/-- A one-record store owned by some other guest session. -/
def c8Db : List Evaluation := [{ baseEvaluation with sessionId := some "other" }]

/-- C8 counterexample: `GET /api/evaluations` by a guest supplying no
session id answers the 400 error `Session ID required for guest access`,
not a successful empty page. -/
theorem c8_guest_without_session_gets_400 :
    getEvaluations c8Db none none none none = .sessionRequired ∧
    Resp.sessionRequired.isSuccess = false ∧
    Resp.sessionRequired.statusCode = 400 := by
  decide

/-- C8 amended: for every store and every pagination input, a guest `list`
with a missing (or empty) `x-session-id` header fails with the 400
`Session ID required for guest access` error rather than returning an empty
page. -/
theorem c8_guest_list_requires_session
    (db : List Evaluation) (page limit : Option Nat) :
    getEvaluations db none none page limit = .sessionRequired ∧
    getEvaluations db none (some "") page limit = .sessionRequired := by
  constructor <;> rfl

/-! ## Claim C7 -/

/-- If the validator chain reports no error on a body carrying a VIN, that
VIN is 17 characters of the VIN alphabet. -/
theorem validateCarBody_nil_vin (cy : Int) (b : CreateBody) (v : String)
    (hv : b.vin = some v) (hnil : validateCarBody cy b = []) : vinOk v = true := by
  unfold validateCarBody at hnil
  rw [hv] at hnil
  rcases List.append_eq_nil.mp hnil with ⟨h2, -⟩
  rcases List.append_eq_nil.mp h2 with ⟨-, hV⟩
  rcases List.append_eq_nil.mp hV with ⟨hV1, hV2⟩
  have h17 : (v.length != 17) = false := by
    cases hE : (v.length != 17)
    · rfl
    · rw [if_pos hE] at hV1
      exact absurd hV1 (by decide)
  have h17' : (v.length == 17) = true := by
    cases hE : (v.length == 17)
    · exfalso
      rw [show (v.length != 17) = !(v.length == 17) from rfl, hE] at h17
      exact absurd h17 (by decide)
    · rfl
  have hall : (v.toList.all vinCharOk) = true := by
    cases hE : (v.toList.all vinCharOk)
    · exfalso
      have hcond : (!(v.toList.all vinCharOk)) = true := by rw [hE]; rfl
      rw [if_pos hcond] at hV2
      exact absurd hV2 (by decide)
    · rfl
  unfold vinOk
  rw [h17', hall]
  rfl

/-- The claim's VIN, `"1HGCM82633A12345"`. -/
def c7Vin : String := "1HGCM82633A12345"

/-- The body supplying the claim's VIN. -/
def c7Body : CreateBody := { baseBody with vin := some c7Vin }

/-- C7 counterexample: the claim's VIN `"1HGCM82633A12345"` is 16
characters long, so — by the claim's own second half — creation rejects it
with a 400 validation error instead of accepting it. -/
theorem c7_example_vin_is_16_chars_and_rejected :
    c7Vin.length = 16 ∧
    vinOk c7Vin = false ∧
    createEvaluation 2026 [] none (some "s") c7Body 1 "m" 5 =
      (.validationFailed ["VIN must be exactly 17 characters"], []) := by
  decide

/-- A 17-character VIN obtained by completing the claim's example. -/
def c7GoodVin : String := "1HGCM82633A123456"

/-- The body supplying the 17-character VIN. -/
def c7GoodBody : CreateBody := { baseBody with vin := some c7GoodVin }

/-- C7 amended: a supplied VIN passes validation iff it is exactly 17
characters drawn from the VIN alphabet (no I, O, Q); any body whose VIN
fails that test — any 16-character VIN in particular — is rejected at
creation with a validation error and nothing is stored; a body whose fields
all validate is stored with the VIN upper-cased (the 17-character
completion `"1HGCM82633A123456"` of the claim's example in particular). -/
theorem c7_vin_validation
    (v : String) (cy : Int) (db : List Evaluation) (user hdr : Option String)
    (b : CreateBody) (newId : Nat) (minted : String) (now : Nat) :
    (vinOk v = true ↔ v.length = 17 ∧ v.toList.all vinCharOk = true) ∧
    (b.vin = some v → vinOk v = false →
      (createEvaluation cy db user hdr b newId minted now).1.isSuccess = false ∧
      (createEvaluation cy db user hdr b newId minted now).2 = db) ∧
    (b.vin = some v → validateCarBody cy b = [] →
      (createEvaluation cy db user hdr b newId minted now).2.map
          (fun e => e.carDetails.vin) =
        db.map (fun e => e.carDetails.vin) ++ [some (jsToUpper v)]) := by
  refine ⟨?_, ?_, ?_⟩
  · unfold vinOk
    constructor
    · intro h
      have h1 := (Bool.and_eq_true _ _).mp h
      exact ⟨by simpa using h1.1, h1.2⟩
    · intro ⟨h1, h2⟩
      rw [h2, h1]
      decide
  · intro hv hbad
    have hne : validateCarBody cy b ≠ [] := by
      intro hnil
      have := validateCarBody_nil_vin cy b v hv hnil
      rw [this] at hbad
      exact absurd hbad (by decide)
    have hbne : (validateCarBody cy b != []) = true := by
      simpa [bne_iff_ne] using hne
    constructor
    · simp only [createEvaluation]
      rw [if_pos hbne]
      rfl
    · simp only [createEvaluation]
      rw [if_pos hbne]
  · intro hv hvalid
    simp only [createEvaluation]
    rw [if_neg (by simp [hvalid])]
    simp [hv]

/-- C7 witness: the amended theorem instantiated at the 17-character VIN —
the characterization accepts it, and the create stores it upper-cased — and
at the 16-character example, which is rejected with nothing stored. -/
theorem c7_vin_validation_witness :
    (vinOk c7GoodVin = true ↔ c7GoodVin.length = 17 ∧ c7GoodVin.toList.all vinCharOk = true) ∧
    ((createEvaluation 2026 [] none none c7GoodBody 1 "m" 5).2.map
        (fun e => e.carDetails.vin) = [some (jsToUpper c7GoodVin)]) ∧
    ((createEvaluation 2026 [] none none c7Body 1 "m" 5).1.isSuccess = false) :=
  ⟨(c7_vin_validation c7GoodVin 2026 [] none none c7GoodBody 1 "m" 5).1,
   (c7_vin_validation c7GoodVin 2026 [] none none c7GoodBody 1 "m" 5).2.2 (by decide) (by decide),
   ((c7_vin_validation c7Vin 2026 [] none none c7Body 1 "m" 5).2.1 (by decide) (by decide)).1⟩

/-! ## Claim C6 -/

/-- C6: whenever analyzeMarket, updateInspection or generateRecommendations
answers successfully, the record it answers with — and stores — has status
`analyzing`, `in_progress`, `completed` respectively; each assignment is
unconditional on the record's prior status (the store, and hence the found
record and its status, is universally quantified), so a successful analyze
on a completed record resets it to `analyzing`. -/
theorem c6_status_transitions
    (db : List Evaluation) (user hdr : Option String) (id : Nat)
    (ev pvm : Int) (comps : List MarketComparable) (t : String) (res : InspResults)
    (draw : Nat → Int × Bool) (now : Nat) :
    (∀ e', (analyzeMarket db user hdr id ev pvm comps now).1 = .okRecord e' →
      e'.status = .analyzing) ∧
    (∀ e', (updateInspection db user hdr id t res now).1 = .okRecord e' →
      e'.status = .in_progress) ∧
    (∀ e', (generateRecommendations db user hdr id draw now).1 = .okRecord e' →
      e'.status = .completed) := by
  refine ⟨?_, ?_, ?_⟩ <;> intro e' he'
  · cases hfind : db.find? (matchesQuery user hdr id) with
    | none => simp [analyzeMarket, hfind] at he'
    | some r =>
        simp only [analyzeMarket, hfind] at he'
        rw [Resp.okRecord.injEq] at he'
        subst he'
        rfl
  · cases hfind : db.find? (matchesQuery user hdr id) with
    | none => simp [updateInspection, hfind] at he'
    | some r =>
        simp only [updateInspection, hfind] at he'
        repeat' split at he'
        all_goals first
          | (rw [Resp.okRecord.injEq] at he'
             subst he'
             rfl)
          | simp at he'
  · cases hfind : db.find? (matchesQuery user hdr id) with
    | none => simp [generateRecommendations, hfind] at he'
    | some r =>
        simp only [generateRecommendations, hfind] at he'
        rw [Resp.okRecord.injEq] at he'
        subst he'
        rfl

/-- A completed guest-session record. -/
def c6Rec : Evaluation :=
  { baseEvaluation with sessionId := some "g6", status := .completed }

/-- The record a successful analyze answers with on the completed record. -/
def c6After : Evaluation :=
  respRecordD (analyzeMarket [c6Rec] none (some "g6") 1 20000 5 [] 9).1 c6Rec

/-- The record a successful general-inspection update answers with. -/
def c6InspAfter : Evaluation :=
  respRecordD (updateInspection [c6Rec] none (some "g6") 1 "general" InspResults.empty 9).1
    c6Rec

/-- The record a successful recommendations generation answers with. -/
def c6RecAfter : Evaluation :=
  respRecordD (generateRecommendations [c6Rec] none (some "g6") 1 (fun _ => (500, false)) 9).1
    c6Rec

/-- C6 witness: the theorem applied to a store holding one record that is
already `completed` — the successful analyze resets it to `analyzing`, the
inspection update to `in_progress`, the recommendations generation back to
`completed`. -/
theorem c6_status_transitions_witness :
    c6After.status = .analyzing ∧ c6InspAfter.status = .in_progress ∧
    c6RecAfter.status = .completed :=
  let h := c6_status_transitions [c6Rec] none (some "g6") 1 20000 5 [] "general"
    InspResults.empty (fun _ => (500, false)) 9
  ⟨h.1 c6After (by decide), h.2.1 c6InspAfter (by decide), h.2.2 c6RecAfter (by decide)⟩

/-! ## Claim C10 -/

/-- C10: an `updateInspection` whose `inspectionType` is outside
general/mechanical/paperwork modifies none of the three inspection
sections, yet still sets status `in_progress`, recomputes progress,
refreshes `updatedAt`, and answers success — there is no validation
branch. -/
theorem c10_unknown_inspection_type_still_succeeds
    (db : List Evaluation) (user hdr : Option String) (id : Nat) (t : String)
    (res : InspResults) (now : Nat) (r : Evaluation)
    (hfind : db.find? (matchesQuery user hdr id) = some r)
    (hg : t ≠ "general") (hm : t ≠ "mechanical") (hp : t ≠ "paperwork") :
    (updateInspection db user hdr id t res now).1 =
      .okRecord { recalcProgress { r with status := .in_progress } with updatedAt := now } ∧
    (updateInspection db user hdr id t res now).1.isSuccess = true ∧
    (∀ e', (updateInspection db user hdr id t res now).1 = .okRecord e' →
      e'.inspection = r.inspection ∧ e'.status = .in_progress ∧
      e'.progress = calculateProgress r ∧ e'.updatedAt = now) := by
  have hins : applyInspection r.inspection t res = r.inspection :=
    applyInspection_unknown r.inspection t res hg hm hp
  have hpb : (t == "paperwork") = false := by
    simp [beq_eq_false_iff_ne]
    exact hp
  have hmain : (updateInspection db user hdr id t res now).1 =
      .okRecord { recalcProgress { r with status := .in_progress } with updatedAt := now } := by
    simp [updateInspection, hfind, hins, hpb]
  refine ⟨hmain, ?_, ?_⟩
  · rw [hmain]
    rfl
  · intro e' he'
    rw [hmain, Resp.okRecord.injEq] at he'
    subst he'
    exact ⟨rfl, rfl, rfl, rfl⟩

/-- A record stored under guest session `"g10"`. -/
def c10Rec : Evaluation := { baseEvaluation with sessionId := some "g10" }

/-- C10 witness: the theorem applied at the unknown type `"engine"` on a
concrete store. -/
theorem c10_unknown_inspection_type_witness :
    (updateInspection [c10Rec] none (some "g10") 1 "engine" InspResults.empty 9).1 =
      .okRecord { recalcProgress { c10Rec with status := .in_progress } with updatedAt := 9 } ∧
    (updateInspection [c10Rec] none (some "g10") 1 "engine" InspResults.empty 9).1.isSuccess =
      true :=
  ⟨(c10_unknown_inspection_type_still_succeeds [c10Rec] none (some "g10") 1 "engine"
      InspResults.empty 9 c10Rec (by decide) (by decide) (by decide) (by decide)).1,
   (c10_unknown_inspection_type_still_succeeds [c10Rec] none (some "g10") 1 "engine"
      InspResults.empty 9 c10Rec (by decide) (by decide) (by decide) (by decide)).2.1⟩

/-! ## Claim C5 -/

/-- Merging any inspection update into a record only raises the seven
section checks. -/
theorem predsLe_inspection_step (r : Evaluation) (t : String) (res : InspResults) :
    predsLe r { r with inspection := applyInspection r.inspection t res,
                       status := .in_progress } :=
  ⟨fun h => h, fun h => h, fun h => h,
   fun h => applyInspection_general_mono r.inspection t res h,
   fun h => applyInspection_mechanical_mono r.inspection t res h,
   fun h => applyInspection_paperwork_mono r.inspection t res h,
   fun h => h⟩

/-- Storing a market analysis with a nonzero deal score only raises the
seven section checks. -/
theorem predsLe_market_step (r : Evaluation) (ma : MarketAnalysis)
    (hds : ma.dealScore ≠ 0) :
    predsLe r { r with marketAnalysis := some ma, status := .analyzing } :=
  ⟨fun h => h, fun h => h,
   fun _ => by simp [marketOk, bne_iff_ne]; exact hds,
   fun h => h, fun h => h, fun h => h, fun h => h⟩

/-- Storing recommendations on a record whose recommendations check was not
yet satisfied only raises the seven section checks. -/
theorem predsLe_recommendations_step (r : Evaluation) (recs : Recommendations)
    (hnone : recommendationsOk r = false) :
    predsLe r { r with recommendations := some recs, status := .completed } :=
  ⟨fun h => h, fun h => h, fun h => h, fun h => h, fun h => h, fun h => h,
   fun h => by rw [h] at hnone; exact Bool.noConfusion hnone⟩

/-- Appending photos through the partial-update patch only raises the seven
section checks. -/
theorem predsLe_photos_step (r : Evaluation) (ps : List Photo) :
    predsLe r (applyPatch r { UpdatePatch.empty with photos := some (r.photos ++ ps) }) :=
  ⟨fun h => h, fun h => by
     have h0 : 0 < r.photos.length := by simpa [photosOk] using h
     simp [photosOk, applyPatch, UpdatePatch.empty, List.length_append]
     omega,
   fun h => h, fun h => h, fun h => h, fun h => h, fun h => h⟩

/-- C5 amended: whenever a record's stored progress equals its calculated
progress, every single section-completing update that only adds data leaves
the recomputed progress at or above the stored value: abstractly, any step
along `predsLe`; concretely, any `updateInspection`, any `analyzeMarket`,
a photo-appending `updateEvaluation`, and a `generateRecommendations` on a
record whose recommendations check was not yet satisfied.  (The stored
progress can exceed the calculated one only through the hard-coded
`progress: 20` at creation, where a zero `mileage` or `price` makes the
first recomputation lower it — the counterexample.) -/
theorem c5_progress_monotone_for_derived_states :
    (∀ e e' : Evaluation, predsLe e e' → e.progress = calculateProgress e →
      e.progress ≤ calculateProgress e') ∧
    (∀ (db : List Evaluation) (user hdr : Option String) (id : Nat) (t : String)
      (res : InspResults) (now : Nat) (r e' : Evaluation),
      db.find? (matchesQuery user hdr id) = some r →
      r.progress = calculateProgress r →
      (updateInspection db user hdr id t res now).1 = .okRecord e' →
      r.progress ≤ e'.progress) ∧
    (∀ (db : List Evaluation) (user hdr : Option String) (id : Nat) (ev pvm : Int)
      (comps : List MarketComparable) (now : Nat) (r e' : Evaluation),
      db.find? (matchesQuery user hdr id) = some r →
      r.progress = calculateProgress r →
      (analyzeMarket db user hdr id ev pvm comps now).1 = .okRecord e' →
      r.progress ≤ e'.progress) ∧
    (∀ (cy : Int) (db : List Evaluation) (user hdr : Option String) (id : Nat)
      (ps : List Photo) (now : Nat) (r e' : Evaluation),
      db.find? (matchesQuery user hdr id) = some r →
      r.progress = calculateProgress r →
      (updateEvaluation cy db user hdr id
          { UpdatePatch.empty with photos := some (r.photos ++ ps) } now).1 = .okRecord e' →
      r.progress ≤ e'.progress) ∧
    (∀ (db : List Evaluation) (user hdr : Option String) (id : Nat)
      (draw : Nat → Int × Bool) (now : Nat) (r e' : Evaluation),
      db.find? (matchesQuery user hdr id) = some r →
      r.progress = calculateProgress r →
      recommendationsOk r = false →
      (generateRecommendations db user hdr id draw now).1 = .okRecord e' →
      r.progress ≤ e'.progress) := by
  have habs : ∀ e e' : Evaluation, predsLe e e' → e.progress = calculateProgress e →
      e.progress ≤ calculateProgress e' := by
    intro e e' hle hst
    rw [hst]
    exact calcProgress_mono e e' hle
  refine ⟨habs, ?_, ?_, ?_, ?_⟩
  · intro db user hdr id t res now r e' hfind hst he'
    simp only [updateInspection, hfind] at he'
    repeat' split at he'
    all_goals first
      | (rw [Resp.okRecord.injEq] at he'
         subst he'
         exact habs r _ (predsLe_inspection_step r t res) hst)
      | simp at he'
  · intro db user hdr id ev pvm comps now r e' hfind hst he'
    simp only [analyzeMarket, hfind] at he'
    rw [Resp.okRecord.injEq] at he'
    subst he'
    exact habs r _ (predsLe_market_step r _ (dealScoreOf_ne_zero pvm)) hst
  · intro cy db user hdr id ps now r e' hfind hst he'
    simp only [updateEvaluation, hfind] at he'
    repeat' split at he'
    all_goals first
      | (rw [Resp.okRecord.injEq] at he'
         subst he'
         exact habs r _ (predsLe_photos_step r ps) hst)
      | simp at he'
  · intro db user hdr id draw now r e' hfind hst hrec he'
    simp only [generateRecommendations, hfind] at he'
    rw [Resp.okRecord.injEq] at he'
    subst he'
    exact habs r _ (predsLe_recommendations_step r _ hrec) hst

/-- Store created by a user with `mileage = 0` (stored progress is the
hard-coded 20 while the calculated progress is 0). -/
def c5CexOut : Resp × List Evaluation :=
  createEvaluation 2026 [] (some "u5") none { baseBody with mileage := 0 } 3 "m" 5

/-- C5 counterexample: on the mileage-0 record the stored progress is 20,
yet marking the general inspection completed — an update that only adds
data — recomputes progress to 10, strictly below the stored value. -/
theorem c5_single_step_can_lower_stored_progress :
    (c5CexOut.2.map fun e => e.progress) = [20] ∧
    (updateInspection c5CexOut.2 (some "u5") none 3 "general" InspResults.empty 6).1.progressOf
      = some 10 ∧
    (10 : Nat) < 20 := by
  decide

/-- A guest-session record whose stored progress equals its calculated
progress. -/
def c5wRec : Evaluation := { baseEvaluation with sessionId := some "g5" }

/-- The record the inspection update answers with. -/
def c5wAfter : Evaluation :=
  respRecordD (updateInspection [c5wRec] none (some "g5") 1 "general" InspResults.empty 9).1
    c5wRec

/-- C5 witness: the amended theorem's inspection conjunct applied to a
concrete derived-state record. -/
theorem c5_progress_monotone_witness : c5wRec.progress ≤ c5wAfter.progress :=
  c5_progress_monotone_for_derived_states.2.1 [c5wRec] none (some "g5") 1 "general"
    InspResults.empty 9 c5wRec c5wAfter (by decide) (by decide) (by decide)

end CarBuyGuru
